import Mathlib

set_option maxHeartbeats 1000000

/-
Shallow embedding of watchlistarr-rust (src/src/*.rs).

Effectful code is embedded by explicit environment passing: every HTTP
endpoint the adapters consult is a field of an environment record holding
the response that call would produce (`Except String` mirrors
`anyhow::Result`), and each adapter operation returns, besides its Rust
return value, the ordered trace of manager calls it issued and the
warnings it logged.  Rust `i32` ids and years are embedded as `Int`
(no arithmetic is performed on them, so overflow cannot arise).
-/

namespace Watchlistarr

/-- Kind of a watchlist item, from models/mod.rs (`enum ItemType`). -/
inductive ItemType where
  | movie
  | «show»
deriving DecidableEq

/-- Watchlist item payload, from models/mod.rs (`struct Item`). -/
structure Item where
  id : String
  title : String
  year : Option Int
  itemType : ItemType
  guid : Option String
  imdbId : Option String
  tmdbId : Option Int
  tvdbId : Option Int
deriving DecidableEq

/-- Wrapper from models/mod.rs (`struct WatchlistItem`).  The `added_at`
wall-clock timestamp is not embedded (never read by the reconciliation
code). -/
structure WatchlistItem where
  item : Item
  userId : String
deriving DecidableEq

/-- Quality profile record, from models/mod.rs (`struct QualityProfile`). -/
structure QualityProfile where
  id : Int
  name : String
deriving DecidableEq

/-- Root folder record, from models/mod.rs (`struct RootFolder`). -/
structure RootFolder where
  id : Int
  path : String
deriving DecidableEq

/-- Tag record, from models/mod.rs (`struct Tag`). -/
structure Tag where
  id : Int
  label : String
deriving DecidableEq

/-- Radarr section of the configuration, from config/mod.rs
(`struct RadarrConfig`); `base_url`, `api_key` and `bypass_ignored` are
omitted (only used to format URLs / never read). -/
structure RadarrConfig where
  qualityProfile : Option String
  rootFolder : Option String
  tags : Option (List String)
deriving DecidableEq

/-- Sonarr section of the configuration, from config/mod.rs
(`struct SonarrConfig`); `base_url`, `api_key` and `bypass_ignored` are
omitted as for `RadarrConfig`. -/
structure SonarrConfig where
  qualityProfile : Option String
  rootFolder : Option String
  seasonMonitoring : Option String
  tags : Option (List String)
deriving DecidableEq

/-- Lookup response element, from radarr/mod.rs (`struct RadarrLookupResult`).
The `extra_fields` flattened JSON bag is not embedded (opaque, never read). -/
structure RadarrLookupResult where
  title : String
  originalTitle : String
  sortTitle : String
  year : Option Int
  tmdbId : Option Int
  imdbId : Option String
deriving DecidableEq

/-- Library listing element, from radarr/mod.rs (`struct RadarrMovieSimple`). -/
structure RadarrMovieSimple where
  tmdbId : Option Int
deriving DecidableEq

/-- Add options, from radarr/mod.rs (`struct RadarrAddOptions`). -/
structure RadarrAddOptions where
  searchForMovie : Bool
deriving DecidableEq

/-- Add-request body, from radarr/mod.rs (`struct RadarrMovie`). -/
structure RadarrMovie where
  title : String
  originalTitle : String
  sortTitle : String
  year : Int
  tmdbId : Option Int
  imdbId : Option String
  qualityProfileId : Int
  rootFolderPath : String
  addOptions : RadarrAddOptions
  monitored : Bool
  tags : List Int
deriving DecidableEq

/-- Lookup response element, from sonarr/mod.rs (`struct SonarrLookupResult`);
`extra_fields` omitted as for Radarr. -/
structure SonarrLookupResult where
  title : String
  sortTitle : String
  year : Option Int
  tvdbId : Option Int
  imdbId : Option String
  tmdbId : Option Int
deriving DecidableEq

/-- Library listing element, from sonarr/mod.rs (`struct SonarrSeriesSimple`). -/
structure SonarrSeriesSimple where
  tvdbId : Option Int
  tmdbId : Option Int
deriving DecidableEq

/-- Add options, from sonarr/mod.rs (`struct SonarrAddOptions`). -/
structure SonarrAddOptions where
  monitor : String
  searchForMissingEpisodes : Bool
deriving DecidableEq

/-- Add-request body, from sonarr/mod.rs (`struct SonarrSeries`). -/
structure SonarrSeries where
  title : String
  sortTitle : String
  year : Int
  tvdbId : Option Int
  imdbId : Option String
  tmdbId : Option Int
  qualityProfileId : Int
  rootFolderPath : String
  addOptions : SonarrAddOptions
  monitored : Bool
  tags : List Int
deriving DecidableEq

/-- One outbound manager request, recorded in the order the adapter issues
it.  GET endpoints carry no body; the two POST constructors carry the
submitted body so that theorems can talk about what was written. -/
inductive ManagerCall where
  | getQualityProfiles
  | getRootFolders
  | getTags
  | getMovies
  | getSeries
  | lookupMovie (term : String)
  | lookupSeries (term : String)
  | postMovie (body : RadarrMovie)
  | postSeries (body : SonarrSeries)
deriving DecidableEq

/-- Warnings the adapters log (`warn!` call sites in radarr/mod.rs and
sonarr/mod.rs that the claims mention). -/
inductive Warning where
  | attemptedWrongKind
  | qualityProfileNotFound
deriving DecidableEq

/-- Result of one `add_movie` / `add_series` call: the Rust return value
plus the trace of issued manager calls and logged warnings. -/
structure AddOutput where
  result : Except String Unit
  calls : List ManagerCall
  warnings : List Warning

/-- Responses the Radarr HTTP endpoints would give during one add attempt
(one field per endpoint of radarr/mod.rs). -/
structure RadarrEnv where
  lookupResponse : Except String (List RadarrLookupResult)
  moviesResponse : Except String (List RadarrMovieSimple)
  qualityProfilesResponse : Except String (List QualityProfile)
  rootFoldersResponse : Except String (List RootFolder)
  tagsResponse : Except String (List Tag)
  postMovieResponse : Except String Unit

/-- Responses the Sonarr HTTP endpoints would give during one add attempt
(one field per endpoint of sonarr/mod.rs). -/
structure SonarrEnv where
  lookupResponse : Except String (List SonarrLookupResult)
  seriesResponse : Except String (List SonarrSeriesSimple)
  qualityProfilesResponse : Except String (List QualityProfile)
  rootFoldersResponse : Except String (List RootFolder)
  tagsResponse : Except String (List Tag)
  postSeriesResponse : Except String Unit

/-- Search term construction shared by `lookup_movie` (radarr/mod.rs 187-191)
and `lookup_series` (sonarr/mod.rs 105-109). -/
def searchTerm (title : String) (year : Option Int) : String :=
  match year with
  | some y => title ++ " " ++ toString y
  | none => title

/-- Quality-profile resolution, lines 124-135 of radarr/mod.rs and the
textually identical lines 161-172 of sonarr/mod.rs.  Returns the resolved
id together with whether the named-but-unmatched warning fired. -/
def resolveQualityProfileId (configured : Option String)
    (profiles : List QualityProfile) : Int × Bool :=
  match configured with
  | some profileName =>
    match profiles.find? (fun p => p.name == profileName) with
    | some p => (p.id, false)
    | none => (((profiles.head?).map (fun p => p.id)).getD 1, true)
  | none => (((profiles.head?).map (fun p => p.id)).getD 1, false)

/-- Root-folder resolution, lines 137-144 of radarr/mod.rs (with
`defaultPath` = "/mnt/shared/movies") and lines 174-181 of sonarr/mod.rs
(with `defaultPath` = "/tv").  A configured folder is used verbatim. -/
def resolveRootFolderPath (configured : Option String)
    (roots : List RootFolder) (defaultPath : String) : String :=
  match configured with
  | some folder => folder
  | none => (((roots.head?).map (fun f => f.path)).getD defaultPath)

/-- Tag-name resolution `resolve_tag_ids`, radarr/mod.rs 210-216 and the
identical sonarr/mod.rs 223-229. -/
def resolveTagIds (tagsResponse : Except String (List Tag))
    (tagNames : List String) : Except String (List Int) :=
  match tagsResponse with
  | .error e => .error e
  | .ok tags =>
    .ok (tagNames.filterMap (fun n => ((tags.find? (fun t => t.label == n)).map (fun t => t.id))))

/-- Tag ids actually used by the add request: `unwrap_or_default()` on
`resolve_tag_ids` when tags are configured, empty otherwise
(radarr/mod.rs 146-150, sonarr/mod.rs 183-187). -/
def tagIdsOf (tagsResponse : Except String (List Tag))
    (configuredTags : Option (List String)) : List Int :=
  match configuredTags with
  | some names => ((resolveTagIds tagsResponse names).toOption).getD []
  | none => []

/-- GET /tag is issued exactly when tags are configured. -/
def tagCalls (configuredTags : Option (List String)) : List ManagerCall :=
  match configuredTags with
  | some _ => [ManagerCall.getTags]
  | none => []

/-- Warnings produced by quality-profile resolution. -/
def qpWarnings (configured : Option String)
    (profiles : List QualityProfile) : List Warning :=
  if (resolveQualityProfileId configured profiles).snd then
    [Warning.qualityProfileNotFound]
  else []

/-- Lookup `lookup_movie`, radarr/mod.rs 186-208: GET the lookup endpoint
and take the first result, erring when the result set is empty. -/
def lookupMovie (lookupResponse : Except String (List RadarrLookupResult))
    (title : String) (year : Option Int) : Except String RadarrLookupResult :=
  match lookupResponse with
  | .error e => .error e
  | .ok results =>
    match results with
    | r :: _ => .ok r
    | [] => .error ("Movie not found in lookup: " ++ searchTerm title year)

/-- Add-request body construction, radarr/mod.rs 154-168. -/
def buildRadarrMovie (r : RadarrLookupResult) (qualityProfileId : Int)
    (rootFolderPath : String) (tagIds : List Int) : RadarrMovie :=
  { title := r.title
    originalTitle := r.originalTitle
    sortTitle := r.sortTitle
    year := r.year.getD 0
    tmdbId := r.tmdbId
    imdbId := r.imdbId
    qualityProfileId := qualityProfileId
    rootFolderPath := rootFolderPath
    addOptions := { searchForMovie := true }
    monitored := true
    tags := tagIds }

/-- Body the movie add attempt would POST, given the profile and root
listings it fetched. -/
def builtMovie (cfg : RadarrConfig) (env : RadarrEnv) (r : RadarrLookupResult)
    (profiles : List QualityProfile) (roots : List RootFolder) : RadarrMovie :=
  buildRadarrMovie r
    (resolveQualityProfileId cfg.qualityProfile profiles).fst
    (resolveRootFolderPath cfg.rootFolder roots "/mnt/shared/movies")
    (tagIdsOf env.tagsResponse cfg.tags)

/-- Tail of `add_movie` after the dedup stage, radarr/mod.rs 121-182:
fetch quality profiles and root folders (propagating their failures),
resolve placement, resolve tags when configured, build the body and POST
it.  `callsSoFar` is the trace accumulated by the earlier stages. -/
def addMovieRest (cfg : RadarrConfig) (env : RadarrEnv)
    (r : RadarrLookupResult) (callsSoFar : List ManagerCall) : AddOutput :=
  match env.qualityProfilesResponse with
  | .error e =>
    { result := .error e
      calls := callsSoFar ++ [ManagerCall.getQualityProfiles]
      warnings := [] }
  | .ok profiles =>
    match env.rootFoldersResponse with
    | .error e =>
      { result := .error e
        calls := callsSoFar ++ [ManagerCall.getQualityProfiles, ManagerCall.getRootFolders]
        warnings := [] }
    | .ok roots =>
      { result := match env.postMovieResponse with
                  | .ok _ => .ok ()
                  | .error e => .error e
        calls := callsSoFar
          ++ [ManagerCall.getQualityProfiles, ManagerCall.getRootFolders]
          ++ tagCalls cfg.tags
          ++ [ManagerCall.postMovie (builtMovie cfg env r profiles roots)]
        warnings := qpWarnings cfg.qualityProfile profiles }

/-- Operation `add_movie`, radarr/mod.rs 100-183: guard the item kind,
look the title up, skip when the top result's TMDB id already appears in
the library listing (the listing is fetched only when the lookup result
has a TMDB id), else continue with `addMovieRest`. -/
def addMovie (cfg : RadarrConfig) (env : RadarrEnv) (item : Item) : AddOutput :=
  if item.itemType ≠ ItemType.movie then
    { result := .ok (), calls := [], warnings := [Warning.attemptedWrongKind] }
  else
    match lookupMovie env.lookupResponse item.title item.year with
    | .error e =>
      { result := .error e
        calls := [ManagerCall.lookupMovie (searchTerm item.title item.year)]
        warnings := [] }
    | .ok r =>
      match r.tmdbId with
      | some tmdbId =>
        match env.moviesResponse with
        | .error e =>
          { result := .error e
            calls := [ManagerCall.lookupMovie (searchTerm item.title item.year),
                      ManagerCall.getMovies]
            warnings := [] }
        | .ok existingMovies =>
          if existingMovies.any (fun m => m.tmdbId == some tmdbId) then
            { result := .ok ()
              calls := [ManagerCall.lookupMovie (searchTerm item.title item.year),
                        ManagerCall.getMovies]
              warnings := [] }
          else
            addMovieRest cfg env r
              [ManagerCall.lookupMovie (searchTerm item.title item.year),
               ManagerCall.getMovies]
      | none =>
        addMovieRest cfg env r
          [ManagerCall.lookupMovie (searchTerm item.title item.year)]

/-- Lookup `lookup_series`, sonarr/mod.rs 104-126. -/
def lookupSeries (lookupResponse : Except String (List SonarrLookupResult))
    (title : String) (year : Option Int) : Except String SonarrLookupResult :=
  match lookupResponse with
  | .error e => .error e
  | .ok results =>
    match results with
    | r :: _ => .ok r
    | [] => .error ("Series not found in lookup: " ++ searchTerm title year)

/-- TVDB-id duplicate test, sonarr/mod.rs 144-149: fires only when the
lookup result carries a TVDB id. -/
def tvdbDuplicate (r : SonarrLookupResult)
    (existing : List SonarrSeriesSimple) : Bool :=
  match r.tvdbId with
  | some tvdbId => existing.any (fun s => s.tvdbId == some tvdbId)
  | none => false

/-- TMDB-id duplicate test, sonarr/mod.rs 151-156. -/
def tmdbDuplicate (r : SonarrLookupResult)
    (existing : List SonarrSeriesSimple) : Bool :=
  match r.tmdbId with
  | some tmdbId => existing.any (fun s => s.tmdbId == some tmdbId)
  | none => false

/-- Add-request body construction, sonarr/mod.rs 191-206. -/
def buildSonarrSeries (cfg : SonarrConfig) (r : SonarrLookupResult)
    (qualityProfileId : Int) (rootFolderPath : String)
    (tagIds : List Int) : SonarrSeries :=
  { title := r.title
    sortTitle := r.sortTitle
    year := r.year.getD 0
    tvdbId := r.tvdbId
    imdbId := r.imdbId
    tmdbId := r.tmdbId
    qualityProfileId := qualityProfileId
    rootFolderPath := rootFolderPath
    addOptions := { monitor := cfg.seasonMonitoring.getD "all"
                    searchForMissingEpisodes := true }
    monitored := true
    tags := tagIds }

/-- Body the series add attempt would POST, given the profile and root
listings it fetched. -/
def builtSeries (cfg : SonarrConfig) (env : SonarrEnv) (r : SonarrLookupResult)
    (profiles : List QualityProfile) (roots : List RootFolder) : SonarrSeries :=
  buildSonarrSeries cfg r
    (resolveQualityProfileId cfg.qualityProfile profiles).fst
    (resolveRootFolderPath cfg.rootFolder roots "/tv")
    (tagIdsOf env.tagsResponse cfg.tags)

/-- Tail of `add_series` after the dedup stage, sonarr/mod.rs 158-221. -/
def addSeriesRest (cfg : SonarrConfig) (env : SonarrEnv)
    (r : SonarrLookupResult) (callsSoFar : List ManagerCall) : AddOutput :=
  match env.qualityProfilesResponse with
  | .error e =>
    { result := .error e
      calls := callsSoFar ++ [ManagerCall.getQualityProfiles]
      warnings := [] }
  | .ok profiles =>
    match env.rootFoldersResponse with
    | .error e =>
      { result := .error e
        calls := callsSoFar ++ [ManagerCall.getQualityProfiles, ManagerCall.getRootFolders]
        warnings := [] }
    | .ok roots =>
      { result := match env.postSeriesResponse with
                  | .ok _ => .ok ()
                  | .error e => .error e
        calls := callsSoFar
          ++ [ManagerCall.getQualityProfiles, ManagerCall.getRootFolders]
          ++ tagCalls cfg.tags
          ++ [ManagerCall.postSeries (builtSeries cfg env r profiles roots)]
        warnings := qpWarnings cfg.qualityProfile profiles }

/-- Operation `add_series`, sonarr/mod.rs 128-221: guard the item kind,
look the title up, fetch the library listing unconditionally, skip when
either the TVDB id or the TMDB id of the top lookup result already
appears in the listing, else continue with `addSeriesRest`. -/
def addSeries (cfg : SonarrConfig) (env : SonarrEnv) (item : Item) : AddOutput :=
  if item.itemType ≠ ItemType.«show» then
    { result := .ok (), calls := [], warnings := [Warning.attemptedWrongKind] }
  else
    match lookupSeries env.lookupResponse item.title item.year with
    | .error e =>
      { result := .error e
        calls := [ManagerCall.lookupSeries (searchTerm item.title item.year)]
        warnings := [] }
    | .ok r =>
      match env.seriesResponse with
      | .error e =>
        { result := .error e
          calls := [ManagerCall.lookupSeries (searchTerm item.title item.year),
                    ManagerCall.getSeries]
          warnings := [] }
      | .ok existingSeries =>
        if tvdbDuplicate r existingSeries then
          { result := .ok ()
            calls := [ManagerCall.lookupSeries (searchTerm item.title item.year),
                      ManagerCall.getSeries]
            warnings := [] }
        else if tmdbDuplicate r existingSeries then
          { result := .ok ()
            calls := [ManagerCall.lookupSeries (searchTerm item.title item.year),
                      ManagerCall.getSeries]
            warnings := [] }
        else
          addSeriesRest cfg env r
            [ManagerCall.lookupSeries (searchTerm item.title item.year),
             ManagerCall.getSeries]

/-- Manager sections of the configuration read by the reconciliation loop
of main.rs (`struct Configuration`; the interval, plex and delete sections
are not consulted inside the per-item loop). -/
structure Configuration where
  radarr : Option RadarrConfig
  sonarr : Option SonarrConfig

/-- Environments for both managers during one reconciliation pass. -/
structure SyncEnv where
  radarrEnv : RadarrEnv
  sonarrEnv : SonarrEnv

/-- Terminal outcome of one watchlist item inside `run_sync`:
the item was routed to Radarr, routed to Sonarr, or skipped because no
manager of its kind is configured. -/
inductive ItemOutcome where
  | processedMovie (out : AddOutput)
  | processedShow (out : AddOutput)
  | skipped

/-- Body of the per-item loop of `run_sync`, main.rs 155-179: route by
kind to the configured manager; an `Err` from the add is logged and
swallowed (`if let Err`), so it is part of the recorded output, never a
loop exit. -/
def processItem (cfg : Configuration) (env : SyncEnv)
    (w : WatchlistItem) : ItemOutcome :=
  match w.item.itemType with
  | ItemType.movie =>
    match cfg.radarr with
    | some radarrCfg => ItemOutcome.processedMovie (addMovie radarrCfg env.radarrEnv w.item)
    | none => ItemOutcome.skipped
  | ItemType.«show» =>
    match cfg.sonarr with
    | some sonarrCfg => ItemOutcome.processedShow (addSeries sonarrCfg env.sonarrEnv w.item)
    | none => ItemOutcome.skipped

/-- Per-item loop of `run_sync`, main.rs 155-179, over an already-fetched
watchlist.  The loop body has no `break`, `return` or `?`: every
iteration records its outcome and control always reaches the next item
(the 100 ms inter-item sleep is real time and not embedded). -/
def runSyncItems (cfg : Configuration) (env : SyncEnv) :
    List WatchlistItem → List ItemOutcome
  | [] => []
  | w :: rest => processItem cfg env w :: runSyncItems cfg env rest

/-- Boolean prefix test on character lists (pattern first). -/
def isPrefixList : List Char → List Char → Bool
  | [], _ => true
  | _ :: _, [] => false
  | p :: ps, c :: cs => p == c && isPrefixList ps cs

/-- Leftmost-occurrence substring search, embedding Rust `str::find` on
the character level (the watchlist scanner's patterns and payloads are
treated as character sequences; Rust indexes by byte, but every offset it
uses is produced by `find`, so the two views coincide). -/
def findSub (pat : List Char) : List Char → Option Nat
  | [] => if isPrefixList pat [] then some 0 else none
  | c :: cs =>
    if isPrefixList pat (c :: cs) then some 0
    else (findSub pat cs).map (fun n => n + 1)

/-- Boolean form of `findSub`, embedding Rust `str::contains`. -/
def containsSub (pat : List Char) (text : List Char) : Bool :=
  (findSub pat text).isSome

/-- Attribute-value extraction shared by `extract_title`,
`extract_rating_key`, `extract_year` and `extract_guid`
(plex/mod.rs 138-176): find the pattern (attribute name, `=` and the
opening quote), then take everything up to the next `"`. -/
def extractAttr (pat : List Char) (line : List Char) : Option (List Char) :=
  match findSub pat line with
  | some start =>
    match findSub [Char.ofNat 34] (line.drop (start + pat.length)) with
    | some endIdx => some ((line.drop (start + pat.length)).take endIdx)
    | none => none
  | none => none

/-- Decimal integer parsing used by `extract_year`
(`str::parse::<i32>().ok()`): accumulates digits, requiring at least one;
any non-digit character fails.  Rust additionally fails on i32 overflow,
which this embedding ignores (no claim involves years of that size). -/
def parseDigits : List Char → Option Nat → Option Nat
  | [], acc => acc
  | c :: cs, acc =>
    if c.isDigit then
      parseDigits cs (some ((acc.getD 0) * 10 + (c.toNat - 48)))
    else none

/-- Signed front end of `parseDigits`, matching Rust integer syntax. -/
def parseIntChars : List Char → Option Int
  | '-' :: rest => (parseDigits rest none).map (fun n => -(n : Int))
  | '+' :: rest => (parseDigits rest none).map (fun n => (n : Int))
  | cs => (parseDigits cs none).map (fun n => (n : Int))

/-- Pattern `title="` used by `extract_title`. -/
def titleQuotePat : List Char := "title=".toList ++ [Char.ofNat 34]

/-- Pattern `ratingKey="` used by `extract_rating_key`. -/
def ratingKeyQuotePat : List Char := "ratingKey=".toList ++ [Char.ofNat 34]

/-- Pattern `year="` used by `extract_year`. -/
def yearQuotePat : List Char := "year=".toList ++ [Char.ofNat 34]

/-- Pattern `guid="` used by `extract_guid`. -/
def guidQuotePat : List Char := "guid=".toList ++ [Char.ofNat 34]

/-- Kind marker `type="movie"` checked by the movie pass. -/
def typeMovieMarker : List Char :=
  "type=".toList ++ [Char.ofNat 34] ++ "movie".toList ++ [Char.ofNat 34]

/-- Kind marker `type="show"` checked by the show pass. -/
def typeShowMarker : List Char :=
  "type=".toList ++ [Char.ofNat 34] ++ "show".toList ++ [Char.ofNat 34]

/-- Element opener `<Video ` searched by the movie pass. -/
def videoOpenTag : List Char := "<Video ".toList

/-- Element opener `<Directory ` searched by the show pass. -/
def directoryOpenTag : List Char := "<Directory ".toList

/-- Per-element body of both scanning passes of `parse_xml_watchlist`
(plex/mod.rs 55-84 and 98-127): the element must contain the kind marker
and the substrings `title=` and `ratingKey=`, and both the title and the
rating key must extract; year and guid are optional.  The `added_at`
wall-clock field of the Rust `WatchlistItem` is not embedded. -/
def processElement (typeMarker : List Char) (kind : ItemType)
    (element : List Char) : Option WatchlistItem :=
  if containsSub typeMarker element
      && containsSub ("title=".toList) element
      && containsSub ("ratingKey=".toList) element then
    match extractAttr titleQuotePat element, extractAttr ratingKeyQuotePat element with
    | some titleChars, some keyChars =>
      some { item := { id := String.mk keyChars
                       title := String.mk titleChars
                       year := (extractAttr yearQuotePat element).bind parseIntChars
                       itemType := kind
                       guid := (extractAttr guidQuotePat element).map String.mk
                       imdbId := none
                       tmdbId := none
                       tvdbId := none }
             userId := "self" }
    | _, _ => none
  else none

/-- Fuelled form of one scanning pass of `parse_xml_watchlist`
(plex/mod.rs 49-89 / 92-132): repeatedly find the next opener, slice the
element up to and including the next `>` (stopping when there is none),
process it, and resume after the `>`.  Each iteration consumes at least
one character, so the fuel used by `scanFor` never runs out; the fuel
only makes the recursion structural. -/
def scanForFuel (openTag : List Char) (typeMarker : List Char)
    (kind : ItemType) : Nat → List Char → List WatchlistItem
  | 0, _ => []
  | Nat.succ fuel, xml =>
    match findSub openTag xml with
    | none => []
    | some start =>
      match findSub (">".toList) (xml.drop start) with
      | none => []
      | some endPos =>
        match processElement typeMarker kind ((xml.drop start).take (endPos + 1)) with
        | some w =>
          w :: scanForFuel openTag typeMarker kind fuel (xml.drop (start + (endPos + 1)))
        | none =>
          scanForFuel openTag typeMarker kind fuel (xml.drop (start + (endPos + 1)))

/-- One scanning pass over the whole payload. -/
def scanFor (openTag : List Char) (typeMarker : List Char) (kind : ItemType)
    (xml : List Char) : List WatchlistItem :=
  scanForFuel openTag typeMarker kind (xml.length + 1) xml

/-- Element slice the scanner would cut at offset `p`: everything from
`p` up to and including the next `>`, empty when no `>` follows.  Used to
state that emitted items arise, in order, from element occurrences at
increasing document offsets. -/
def elementSliceAt (xml : List Char) (p : Nat) : List Char :=
  match findSub (">".toList) (xml.drop p) with
  | some endPos => (xml.drop p).take (endPos + 1)
  | none => []

/-- Item list produced by `parse_xml_watchlist` (plex/mod.rs 43-136): the
movie pass over the whole payload, then the show pass over the whole
payload. -/
def parseItems (xml : List Char) : List WatchlistItem :=
  scanFor videoOpenTag typeMovieMarker ItemType.movie xml
    ++ scanFor directoryOpenTag typeShowMarker ItemType.«show» xml

/-- Operation `parse_xml_watchlist`, plex/mod.rs 43-136.  Its Rust return
type is `Result`, but every control path ends in `Ok`. -/
def parseXmlWatchlist (xml : List Char) : Except String (List WatchlistItem) :=
  Except.ok (parseItems xml)



/-! ## Concrete fixtures used by witnesses and counterexamples -/

/-- Movie-kind watchlist entry used by concrete instances. -/
def itemMovieFx : Item :=
  { id := "123", title := "Dune", year := some 2021, itemType := ItemType.movie,
    guid := none, imdbId := none, tmdbId := none, tvdbId := none }

/-- Show-kind watchlist entry used by concrete instances. -/
def itemShowFx : Item :=
  { id := "77", title := "Severance", year := some 2022, itemType := ItemType.«show»,
    guid := none, imdbId := none, tmdbId := none, tvdbId := none }

/-- Radarr configuration with nothing configured. -/
def radarrCfgFx : RadarrConfig :=
  { qualityProfile := none, rootFolder := none, tags := none }

/-- Top lookup result carrying a TMDB id. -/
def lookupMovieFx : RadarrLookupResult :=
  { title := "Dune", originalTitle := "Dune", sortTitle := "dune",
    year := some 2021, tmdbId := some 438631, imdbId := none }

/-- Radarr environment in which the looked-up TMDB id is already in the
library listing. -/
def radarrEnvDupFx : RadarrEnv :=
  { lookupResponse := .ok [lookupMovieFx]
    moviesResponse := .ok [{ tmdbId := some 438631 }]
    qualityProfilesResponse := .ok [{ id := 4, name := "HD-1080p" }]
    rootFoldersResponse := .ok [{ id := 1, path := "/data" }]
    tagsResponse := .ok []
    postMovieResponse := .ok () }

/-- Sonarr configuration with nothing configured. -/
def sonarrCfgFx : SonarrConfig :=
  { qualityProfile := none, rootFolder := none, seasonMonitoring := none, tags := none }

/-- Top show lookup result carrying both a TVDB id and a TMDB id. -/
def lookupShowFx : SonarrLookupResult :=
  { title := "Severance", sortTitle := "severance", year := some 2022,
    tvdbId := some 111, imdbId := none, tmdbId := some 999 }

/-- Sonarr environment whose library matches `lookupShowFx` on the TVDB id
only (TMDB ids differ). -/
def sonarrEnvTvdbDupFx : SonarrEnv :=
  { lookupResponse := .ok [lookupShowFx]
    seriesResponse := .ok [{ tvdbId := some 111, tmdbId := some 888 }]
    qualityProfilesResponse := .ok [{ id := 4, name := "HD-1080p" }]
    rootFoldersResponse := .ok [{ id := 1, path := "/data" }]
    tagsResponse := .ok []
    postSeriesResponse := .ok () }

/-- Sonarr environment whose library matches `lookupShowFx` on the TMDB id
only (TVDB ids differ). -/
def sonarrEnvTmdbDupFx : SonarrEnv :=
  { lookupResponse := .ok [lookupShowFx]
    seriesResponse := .ok [{ tvdbId := some 555, tmdbId := some 999 }]
    qualityProfilesResponse := .ok [{ id := 4, name := "HD-1080p" }]
    rootFoldersResponse := .ok [{ id := 1, path := "/data" }]
    tagsResponse := .ok []
    postSeriesResponse := .ok () }

/-- Top movie lookup result carrying no TMDB id. -/
def lookupMovieNoTmdbFx : RadarrLookupResult :=
  { title := "Obscure", originalTitle := "Obscure", sortTitle := "obscure",
    year := some 1950, tmdbId := none, imdbId := none }

/-- Radarr environment whose lookup result has no TMDB id; all placement
endpoints respond normally. -/
def radarrEnvNoTmdbFx : RadarrEnv :=
  { lookupResponse := .ok [lookupMovieNoTmdbFx]
    moviesResponse := .ok [{ tmdbId := some 438631 }]
    qualityProfilesResponse := .ok [{ id := 4, name := "HD-1080p" }]
    rootFoldersResponse := .ok [{ id := 1, path := "/data" }]
    tagsResponse := .ok []
    postMovieResponse := .ok () }

/-- Sonarr environment with an empty library and normal placement
endpoints (the add proceeds to a POST). -/
def sonarrEnvFreshFx : SonarrEnv :=
  { lookupResponse := .ok [lookupShowFx]
    seriesResponse := .ok []
    qualityProfilesResponse := .ok [{ id := 4, name := "HD-1080p" }]
    rootFoldersResponse := .ok [{ id := 1, path := "/data" }]
    tagsResponse := .ok []
    postSeriesResponse := .ok () }

/-- Radarr environment reporting an empty quality-profile list. -/
def radarrEnvEmptyQpFx : RadarrEnv :=
  { lookupResponse := .ok [lookupMovieNoTmdbFx]
    moviesResponse := .ok []
    qualityProfilesResponse := .ok []
    rootFoldersResponse := .ok [{ id := 1, path := "/data" }]
    tagsResponse := .ok []
    postMovieResponse := .ok () }

/-- Sonarr environment reporting an empty quality-profile list. -/
def sonarrEnvEmptyQpFx : SonarrEnv :=
  { lookupResponse := .ok [lookupShowFx]
    seriesResponse := .ok []
    qualityProfilesResponse := .ok []
    rootFoldersResponse := .ok [{ id := 1, path := "/data" }]
    tagsResponse := .ok []
    postSeriesResponse := .ok () }

/-! ## Helper lemmas -/

/-- Radarr configuration with a configured storage root. -/
def radarrCfgCustomRootFx : RadarrConfig :=
  { qualityProfile := none, rootFolder := some "/custom", tags := none }

/-- Radarr environment with an empty library and normal placement
endpoints (the add proceeds to a POST); the lookup result carries a
TMDB id. -/
def radarrEnvFreshFx : RadarrEnv :=
  { lookupResponse := .ok [lookupMovieFx]
    moviesResponse := .ok []
    qualityProfilesResponse := .ok [{ id := 4, name := "HD-1080p" }]
    rootFoldersResponse := .ok [{ id := 1, path := "/data" }]
    tagsResponse := .ok []
    postMovieResponse := .ok () }

/-- Second-run Radarr environment after adding the no-TMDB movie: the
library listing now holds exactly that movie's projection (a record with
no TMDB id); nothing else changed. -/
def radarrEnvNoTmdbRun2Fx : RadarrEnv :=
  { lookupResponse := .ok [lookupMovieNoTmdbFx]
    moviesResponse := .ok [{ tmdbId := none }]
    qualityProfilesResponse := .ok [{ id := 4, name := "HD-1080p" }]
    rootFoldersResponse := .ok [{ id := 1, path := "/data" }]
    tagsResponse := .ok []
    postMovieResponse := .ok () }

/-- Second-run Sonarr environment after adding the show: the library
listing now holds that show's id projection; nothing else changed. -/
def sonarrEnvRun2Fx : SonarrEnv :=
  { lookupResponse := .ok [lookupShowFx]
    seriesResponse := .ok [{ tvdbId := some 111, tmdbId := some 999 }]
    qualityProfilesResponse := .ok [{ id := 4, name := "HD-1080p" }]
    rootFoldersResponse := .ok [{ id := 1, path := "/data" }]
    tagsResponse := .ok []
    postSeriesResponse := .ok () }

/-- Body the first run posts for the no-TMDB movie. -/
def moviePostedNoTmdbFx : RadarrMovie :=
  builtMovie radarrCfgFx radarrEnvNoTmdbFx lookupMovieNoTmdbFx
    [{ id := 4, name := "HD-1080p" }] [{ id := 1, path := "/data" }]

/-- Body the first run posts for the TMDB-carrying movie. -/
def moviePostedFx : RadarrMovie :=
  builtMovie radarrCfgFx radarrEnvFreshFx lookupMovieFx
    [{ id := 4, name := "HD-1080p" }] [{ id := 1, path := "/data" }]

/-- Body the first run posts for the show. -/
def seriesPostedFx : SonarrSeries :=
  builtSeries sonarrCfgFx sonarrEnvFreshFx lookupShowFx
    [{ id := 4, name := "HD-1080p" }] [{ id := 1, path := "/data" }]

/-- Body posted under the configured custom storage root. -/
def movieBodyCustomRootFx : RadarrMovie :=
  builtMovie radarrCfgCustomRootFx radarrEnvNoTmdbFx lookupMovieNoTmdbFx
    [{ id := 4, name := "HD-1080p" }] [{ id := 1, path := "/data" }]

/-- Payload in which a well-formed show record precedes a well-formed
movie record. -/
def xmlInterleavedFx : List Char :=
  "<Directory type=\"show\" title=\"A\" ratingKey=\"1\"><Video type=\"movie\" title=\"B\" ratingKey=\"2\">".toList

/-- Movie element lacking a title attribute. -/
def elNoTitleFx : List Char := "<Video type=\"movie\" ratingKey=\"9\">".toList

/-- Neither POST constructor ever appears among the tag-resolution calls. -/
theorem post_not_mem_tagCalls (m : RadarrMovie) (srs : SonarrSeries)
    (ot : Option (List String)) :
    ManagerCall.postMovie m ∉ tagCalls ot ∧ ManagerCall.postSeries srs ∉ tagCalls ot := by
  cases ot <;> simp [tagCalls]

/-- Membership of the unmatched-profile warning in `qpWarnings` is exactly
the resolution warning flag. -/
theorem mem_qpWarnings_iff (c : Option String) (profiles : List QualityProfile) :
    Warning.qualityProfileNotFound ∈ qpWarnings c profiles ↔
      (resolveQualityProfileId c profiles).snd = true := by
  simp only [qpWarnings]
  split <;> simp_all

/-- With an empty reported profile list the resolution falls back to the
hard-coded id 1, whatever is configured. -/
theorem resolveQualityProfileId_nil (c : Option String) :
    (resolveQualityProfileId c []).fst = 1 := by
  cases c <;> simp [resolveQualityProfileId]

/-- Inversion for the tail of `add_movie`: a POST in its trace that was
not already in the accumulated prefix means both placement fetches
succeeded and the body is the built one; the warnings are those of
quality-profile resolution. -/
theorem addMovieRest_post (cfg : RadarrConfig) (env : RadarrEnv)
    (r : RadarrLookupResult) (callsSoFar : List ManagerCall) (m : RadarrMovie)
    (hmem : ManagerCall.postMovie m ∈ (addMovieRest cfg env r callsSoFar).calls)
    (hnotin : ManagerCall.postMovie m ∉ callsSoFar) :
    ∃ profiles roots,
      env.qualityProfilesResponse = Except.ok profiles ∧
      env.rootFoldersResponse = Except.ok roots ∧
      m = builtMovie cfg env r profiles roots ∧
      (addMovieRest cfg env r callsSoFar).warnings =
        qpWarnings cfg.qualityProfile profiles := by
  rcases hqp : env.qualityProfilesResponse with e | profiles
  · simp [addMovieRest, hqp] at hmem
    exact absurd hmem hnotin
  · rcases hrf : env.rootFoldersResponse with e | roots
    · simp [addMovieRest, hqp, hrf] at hmem
      exact absurd hmem hnotin
    · refine ⟨profiles, roots, rfl, rfl, ?_, ?_⟩
      · rcases htags : cfg.tags with _ | ts
        all_goals simp [addMovieRest, hqp, hrf, tagCalls, htags] at hmem
        all_goals rcases hmem with h | h
        · exact absurd h hnotin
        · exact h
        · exact absurd h hnotin
        · exact h
      · simp [addMovieRest, hqp, hrf]

/-- Inversion for `add_movie`: any POST in its trace means the item was
movie-kind, the lookup succeeded with a first result, both placement
fetches succeeded, the body is the built one, and the warnings are those
of quality-profile resolution. -/
theorem addMovie_post (cfg : RadarrConfig) (env : RadarrEnv) (item : Item)
    (m : RadarrMovie)
    (hmem : ManagerCall.postMovie m ∈ (addMovie cfg env item).calls) :
    ∃ r rest profiles roots,
      item.itemType = ItemType.movie ∧
      env.lookupResponse = Except.ok (r :: rest) ∧
      env.qualityProfilesResponse = Except.ok profiles ∧
      env.rootFoldersResponse = Except.ok roots ∧
      m = builtMovie cfg env r profiles roots ∧
      (addMovie cfg env item).warnings = qpWarnings cfg.qualityProfile profiles := by
  by_cases hkind : item.itemType = ItemType.movie
  · rcases hlk : env.lookupResponse with e | results
    · simp [addMovie, lookupMovie, hkind, hlk] at hmem
    · rcases results with _ | ⟨r, rest⟩
      · simp [addMovie, lookupMovie, hkind, hlk] at hmem
      · rcases htm : r.tmdbId with _ | t
        · have hstep : addMovie cfg env item = addMovieRest cfg env r
              [ManagerCall.lookupMovie (searchTerm item.title item.year)] := by
            simp [addMovie, lookupMovie, hkind, hlk, htm]
          rw [hstep] at hmem ⊢
          obtain ⟨profiles, roots, h1, h2, h3, h4⟩ :=
            addMovieRest_post cfg env r _ m hmem (by simp)
          exact ⟨r, rest, profiles, roots, hkind, rfl, h1, h2, h3, h4⟩
        · rcases hlib : env.moviesResponse with e | existing
          · simp [addMovie, lookupMovie, hkind, hlk, htm, hlib] at hmem
          · by_cases hhit : existing.any (fun s => s.tmdbId == some t) = true
            · simp [addMovie, lookupMovie, hkind, hlk, htm, hlib, hhit] at hmem
            · have hstep : addMovie cfg env item = addMovieRest cfg env r
                  [ManagerCall.lookupMovie (searchTerm item.title item.year),
                   ManagerCall.getMovies] := by
                simp [addMovie, lookupMovie, hkind, hlk, htm, hlib, hhit]
              rw [hstep] at hmem ⊢
              obtain ⟨profiles, roots, h1, h2, h3, h4⟩ :=
                addMovieRest_post cfg env r _ m hmem (by simp)
              exact ⟨r, rest, profiles, roots, hkind, rfl, h1, h2, h3, h4⟩
  · simp [addMovie, hkind] at hmem

/-- Inversion for the tail of `add_series`, mirroring `addMovieRest_post`. -/
theorem addSeriesRest_post (cfg : SonarrConfig) (env : SonarrEnv)
    (r : SonarrLookupResult) (callsSoFar : List ManagerCall) (srs : SonarrSeries)
    (hmem : ManagerCall.postSeries srs ∈ (addSeriesRest cfg env r callsSoFar).calls)
    (hnotin : ManagerCall.postSeries srs ∉ callsSoFar) :
    ∃ profiles roots,
      env.qualityProfilesResponse = Except.ok profiles ∧
      env.rootFoldersResponse = Except.ok roots ∧
      srs = builtSeries cfg env r profiles roots ∧
      (addSeriesRest cfg env r callsSoFar).warnings =
        qpWarnings cfg.qualityProfile profiles := by
  rcases hqp : env.qualityProfilesResponse with e | profiles
  · simp [addSeriesRest, hqp] at hmem
    exact absurd hmem hnotin
  · rcases hrf : env.rootFoldersResponse with e | roots
    · simp [addSeriesRest, hqp, hrf] at hmem
      exact absurd hmem hnotin
    · refine ⟨profiles, roots, rfl, rfl, ?_, ?_⟩
      · rcases htags : cfg.tags with _ | ts
        all_goals simp [addSeriesRest, hqp, hrf, tagCalls, htags] at hmem
        all_goals rcases hmem with h | h
        · exact absurd h hnotin
        · exact h
        · exact absurd h hnotin
        · exact h
      · simp [addSeriesRest, hqp, hrf]

/-- Inversion for `add_series`, mirroring `addMovie_post`; additionally
both duplicate tests must have been negative. -/
theorem addSeries_post (cfg : SonarrConfig) (env : SonarrEnv) (item : Item)
    (srs : SonarrSeries)
    (hmem : ManagerCall.postSeries srs ∈ (addSeries cfg env item).calls) :
    ∃ r rest existing profiles roots,
      item.itemType = ItemType.«show» ∧
      env.lookupResponse = Except.ok (r :: rest) ∧
      env.seriesResponse = Except.ok existing ∧
      tvdbDuplicate r existing = false ∧
      tmdbDuplicate r existing = false ∧
      env.qualityProfilesResponse = Except.ok profiles ∧
      env.rootFoldersResponse = Except.ok roots ∧
      srs = builtSeries cfg env r profiles roots ∧
      (addSeries cfg env item).warnings = qpWarnings cfg.qualityProfile profiles := by
  by_cases hkind : item.itemType = ItemType.«show»
  · rcases hlk : env.lookupResponse with e | results
    · simp [addSeries, lookupSeries, hkind, hlk] at hmem
    · rcases results with _ | ⟨r, rest⟩
      · simp [addSeries, lookupSeries, hkind, hlk] at hmem
      · rcases hlib : env.seriesResponse with e | existing
        · simp [addSeries, lookupSeries, hkind, hlk, hlib] at hmem
        · by_cases h1 : tvdbDuplicate r existing = true
          · simp [addSeries, lookupSeries, hkind, hlk, hlib, h1] at hmem
          · by_cases h2 : tmdbDuplicate r existing = true
            · simp [addSeries, lookupSeries, hkind, hlk, hlib, h1, h2] at hmem
            · have h1f : tvdbDuplicate r existing = false := by
                revert h1; cases tvdbDuplicate r existing <;> simp
              have h2f : tmdbDuplicate r existing = false := by
                revert h2; cases tmdbDuplicate r existing <;> simp
              have hstep : addSeries cfg env item = addSeriesRest cfg env r
                  [ManagerCall.lookupSeries (searchTerm item.title item.year),
                   ManagerCall.getSeries] := by
                simp [addSeries, lookupSeries, hkind, hlk, hlib, h1f, h2f]
              rw [hstep] at hmem ⊢
              obtain ⟨profiles, roots, g1, g2, g3, g4⟩ :=
                addSeriesRest_post cfg env r _ srs hmem (by simp)
              exact ⟨r, rest, existing, profiles, roots, hkind, rfl, rfl,
                h1f, h2f, g1, g2, g3, g4⟩
  · simp [addSeries, hkind] at hmem

/-- Show dedup hit: when either duplicate test fires, `add_series`
returns `Ok` after the listing fetch and issues no POST. -/
theorem addSeries_dup_skip (cfg : SonarrConfig) (env : SonarrEnv) (item : Item)
    (r : SonarrLookupResult) (rest : List SonarrLookupResult)
    (existing : List SonarrSeriesSimple)
    (hkind : item.itemType = ItemType.«show»)
    (hlookup : env.lookupResponse = Except.ok (r :: rest))
    (hlib : env.seriesResponse = Except.ok existing)
    (hdup : tvdbDuplicate r existing = true ∨ tmdbDuplicate r existing = true) :
    addSeries cfg env item =
      { result := Except.ok ()
        calls := [ManagerCall.lookupSeries (searchTerm item.title item.year),
                  ManagerCall.getSeries]
        warnings := [] } := by
  rcases hdup with h | h
  · simp [addSeries, lookupSeries, hkind, hlookup, hlib, h]
  · cases h1 : tvdbDuplicate r existing <;>
      simp [addSeries, lookupSeries, hkind, hlookup, hlib, h, h1]


/-- Movie dedup hit: when the top lookup result carries a TMDB id that the
library listing already contains, `add_movie` returns `Ok` after the
listing fetch and issues no POST. -/
theorem addMovie_dup_skip (cfg : RadarrConfig) (env : RadarrEnv) (item : Item)
    (r : RadarrLookupResult) (rest : List RadarrLookupResult) (t : Int)
    (existing : List RadarrMovieSimple)
    (hkind : item.itemType = ItemType.movie)
    (hlookup : env.lookupResponse = Except.ok (r :: rest))
    (htmdb : r.tmdbId = some t)
    (hlib : env.moviesResponse = Except.ok existing)
    (hhit : existing.any (fun m => m.tmdbId == some t) = true) :
    addMovie cfg env item =
      { result := Except.ok ()
        calls := [ManagerCall.lookupMovie (searchTerm item.title item.year),
                  ManagerCall.getMovies]
        warnings := [] } := by
  simp [addMovie, lookupMovie, hkind, hlookup, htmdb, hlib, hhit]

/-! ## Claims -/

/-- C1: for every movie-kind entry whose lookup-resolved TMDB id already
appears among the records returned by the library listing, `add_movie`
treats the item as already present, returning `Ok` without issuing any
POST. -/
theorem c1_movie_dedup_suppresses_add (cfg : RadarrConfig) (env : RadarrEnv)
    (item : Item) (r : RadarrLookupResult) (rest : List RadarrLookupResult)
    (t : Int) (existing : List RadarrMovieSimple)
    (hkind : item.itemType = ItemType.movie)
    (hlookup : env.lookupResponse = Except.ok (r :: rest))
    (htmdb : r.tmdbId = some t)
    (hlib : env.moviesResponse = Except.ok existing)
    (hhit : existing.any (fun m => m.tmdbId == some t) = true) :
    (addMovie cfg env item).result = Except.ok () ∧
    ∀ body, ManagerCall.postMovie body ∉ (addMovie cfg env item).calls := by
  rw [addMovie_dup_skip cfg env item r rest t existing hkind hlookup htmdb hlib hhit]
  refine ⟨rfl, ?_⟩
  intro body
  simp

/-- C1 witness: the dedup hit at a concrete entry, lookup result and
library listing. -/
theorem c1_witness :
    (addMovie radarrCfgFx radarrEnvDupFx itemMovieFx).result = Except.ok () ∧
    ∀ body, ManagerCall.postMovie body ∉ (addMovie radarrCfgFx radarrEnvDupFx itemMovieFx).calls :=
  c1_movie_dedup_suppresses_add radarrCfgFx radarrEnvDupFx itemMovieFx
    lookupMovieFx [] 438631 [{ tmdbId := some 438631 }]
    rfl rfl rfl rfl (by decide)


/-- C2: for every show-kind entry, a match of the top lookup result
against the existing library on the TVDB id alone, or on the TMDB id
alone, suffices for `add_series` to return `Ok` without issuing a POST;
each id namespace independently suppresses the add. -/
theorem c2_show_either_id_suppresses_add :
    (∀ (cfg : SonarrConfig) (env : SonarrEnv) (item : Item)
        (r : SonarrLookupResult) (rest : List SonarrLookupResult) (t : Int)
        (existing : List SonarrSeriesSimple),
      item.itemType = ItemType.«show» →
      env.lookupResponse = Except.ok (r :: rest) →
      env.seriesResponse = Except.ok existing →
      r.tvdbId = some t →
      existing.any (fun s => s.tvdbId == some t) = true →
      (addSeries cfg env item).result = Except.ok () ∧
      ∀ b, ManagerCall.postSeries b ∉ (addSeries cfg env item).calls) ∧
    (∀ (cfg : SonarrConfig) (env : SonarrEnv) (item : Item)
        (r : SonarrLookupResult) (rest : List SonarrLookupResult) (t : Int)
        (existing : List SonarrSeriesSimple),
      item.itemType = ItemType.«show» →
      env.lookupResponse = Except.ok (r :: rest) →
      env.seriesResponse = Except.ok existing →
      r.tmdbId = some t →
      existing.any (fun s => s.tmdbId == some t) = true →
      (addSeries cfg env item).result = Except.ok () ∧
      ∀ b, ManagerCall.postSeries b ∉ (addSeries cfg env item).calls) := by
  constructor
  · intro cfg env item r rest t existing hkind hlookup hlib hid hhit
    rw [addSeries_dup_skip cfg env item r rest existing hkind hlookup hlib
      (Or.inl (by simp [tvdbDuplicate, hid, hhit]))]
    exact ⟨rfl, by intro b; simp⟩
  · intro cfg env item r rest t existing hkind hlookup hlib hid hhit
    rw [addSeries_dup_skip cfg env item r rest existing hkind hlookup hlib
      (Or.inr (by simp [tmdbDuplicate, hid, hhit]))]
    exact ⟨rfl, by intro b; simp⟩

/-- C2 witness: concrete environments in which only the TVDB id matches,
respectively only the TMDB id matches, each suppressing the add. -/
theorem c2_witness :
    ((addSeries sonarrCfgFx sonarrEnvTvdbDupFx itemShowFx).result = Except.ok () ∧
      ∀ b, ManagerCall.postSeries b ∉ (addSeries sonarrCfgFx sonarrEnvTvdbDupFx itemShowFx).calls) ∧
    ((addSeries sonarrCfgFx sonarrEnvTmdbDupFx itemShowFx).result = Except.ok () ∧
      ∀ b, ManagerCall.postSeries b ∉ (addSeries sonarrCfgFx sonarrEnvTmdbDupFx itemShowFx).calls) :=
  ⟨c2_show_either_id_suppresses_add.1 sonarrCfgFx sonarrEnvTvdbDupFx itemShowFx
      lookupShowFx [] 111 [{ tvdbId := some 111, tmdbId := some 888 }]
      rfl rfl rfl rfl (by decide),
    c2_show_either_id_suppresses_add.2 sonarrCfgFx sonarrEnvTmdbDupFx itemShowFx
      lookupShowFx [] 999 [{ tvdbId := some 555, tmdbId := some 999 }]
      rfl rfl rfl rfl (by decide)⟩

/-- C9: for every movie add attempt whose top lookup result carries no
TMDB id, `add_movie` never fetches the library listing (no dedup check)
and proceeds to build and POST the add request. -/
theorem c9_no_tmdb_skips_dedup (cfg : RadarrConfig) (env : RadarrEnv)
    (item : Item) (r : RadarrLookupResult) (rest : List RadarrLookupResult)
    (profiles : List QualityProfile) (roots : List RootFolder)
    (hkind : item.itemType = ItemType.movie)
    (hlookup : env.lookupResponse = Except.ok (r :: rest))
    (htmdb : r.tmdbId = none)
    (hqp : env.qualityProfilesResponse = Except.ok profiles)
    (hrf : env.rootFoldersResponse = Except.ok roots) :
    ManagerCall.getMovies ∉ (addMovie cfg env item).calls ∧
    ManagerCall.postMovie (builtMovie cfg env r profiles roots) ∈
      (addMovie cfg env item).calls := by
  have hstep : addMovie cfg env item = addMovieRest cfg env r
      [ManagerCall.lookupMovie (searchTerm item.title item.year)] := by
    simp [addMovie, lookupMovie, hkind, hlookup, htmdb]
  rw [hstep]
  cases htags : cfg.tags <;>
    simp [addMovieRest, hqp, hrf, tagCalls, htags]

/-- C9 witness: a concrete no-TMDB lookup result for which the listing is
never fetched and the built body is posted. -/
theorem c9_witness :
    ManagerCall.getMovies ∉ (addMovie radarrCfgFx radarrEnvNoTmdbFx itemMovieFx).calls ∧
    ManagerCall.postMovie
        (builtMovie radarrCfgFx radarrEnvNoTmdbFx lookupMovieNoTmdbFx
          [{ id := 4, name := "HD-1080p" }] [{ id := 1, path := "/data" }]) ∈
      (addMovie radarrCfgFx radarrEnvNoTmdbFx itemMovieFx).calls :=
  c9_no_tmdb_skips_dedup radarrCfgFx radarrEnvNoTmdbFx itemMovieFx
    lookupMovieNoTmdbFx [] [{ id := 4, name := "HD-1080p" }] [{ id := 1, path := "/data" }]
    rfl rfl rfl rfl rfl

/-- C5: quality-tier resolution — a configured name matching a reported
profile (by exact, case-sensitive name equality) resolves to that
profile's id with no warning; no configured name resolves to the first
reported profile's id with no warning; a configured but unmatched name
resolves to the first reported profile's id with the warning flag set;
and every POSTed body (movie or series) carries the id so resolved, with
the warning logged exactly when the flag is set. -/
theorem c5_quality_profile_resolution :
    (∀ (name : String) (profiles : List QualityProfile) (p : QualityProfile),
      profiles.find? (fun q => q.name == name) = some p →
      resolveQualityProfileId (some name) profiles = (p.id, false)) ∧
    (∀ (p0 : QualityProfile) (ps : List QualityProfile),
      resolveQualityProfileId none (p0 :: ps) = (p0.id, false)) ∧
    (∀ (name : String) (p0 : QualityProfile) (ps : List QualityProfile),
      (p0 :: ps).find? (fun q => q.name == name) = none →
      resolveQualityProfileId (some name) (p0 :: ps) = (p0.id, true)) ∧
    (∀ (cfg : RadarrConfig) (env : RadarrEnv) (item : Item) (body : RadarrMovie)
        (profiles : List QualityProfile),
      env.qualityProfilesResponse = Except.ok profiles →
      ManagerCall.postMovie body ∈ (addMovie cfg env item).calls →
      body.qualityProfileId = (resolveQualityProfileId cfg.qualityProfile profiles).fst ∧
      (Warning.qualityProfileNotFound ∈ (addMovie cfg env item).warnings ↔
        (resolveQualityProfileId cfg.qualityProfile profiles).snd = true)) ∧
    (∀ (cfg : SonarrConfig) (env : SonarrEnv) (item : Item) (body : SonarrSeries)
        (profiles : List QualityProfile),
      env.qualityProfilesResponse = Except.ok profiles →
      ManagerCall.postSeries body ∈ (addSeries cfg env item).calls →
      body.qualityProfileId = (resolveQualityProfileId cfg.qualityProfile profiles).fst ∧
      (Warning.qualityProfileNotFound ∈ (addSeries cfg env item).warnings ↔
        (resolveQualityProfileId cfg.qualityProfile profiles).snd = true)) := by
  refine ⟨?_, ?_, ?_, ?_, ?_⟩
  · intro name profiles p h
    simp [resolveQualityProfileId, h]
  · intro p0 ps
    simp [resolveQualityProfileId]
  · intro name p0 ps h
    simp [resolveQualityProfileId, h]
  · intro cfg env item body profiles hqp hmem
    obtain ⟨r, rest, profiles0, roots, hk, hl, hq, hr, hbody, hwarn⟩ :=
      addMovie_post cfg env item body hmem
    rw [hqp] at hq
    obtain rfl := (Except.ok.inj hq).symm
    subst hbody
    constructor
    · simp [builtMovie, buildRadarrMovie]
    · rw [hwarn]
      exact mem_qpWarnings_iff _ _
  · intro cfg env item body profiles hqp hmem
    obtain ⟨r, rest, existing, profiles0, roots, hk, hl, hlib, hd1, hd2, hq, hr, hbody, hwarn⟩ :=
      addSeries_post cfg env item body hmem
    rw [hqp] at hq
    obtain rfl := (Except.ok.inj hq).symm
    subst hbody
    constructor
    · simp [builtSeries, buildSonarrSeries]
    · rw [hwarn]
      exact mem_qpWarnings_iff _ _

/-- C5 witness: the three resolution cases and both POST linkages at
concrete inputs. -/
theorem c5_witness :
    resolveQualityProfileId (some "HD-1080p") [{ id := 4, name := "HD-1080p" }] = (4, false) ∧
    resolveQualityProfileId none [{ id := 4, name := "HD-1080p" }] = (4, false) ∧
    resolveQualityProfileId (some "Ultra") [{ id := 4, name := "HD-1080p" }] = (4, true) ∧
    ((builtMovie radarrCfgFx radarrEnvNoTmdbFx lookupMovieNoTmdbFx
          [{ id := 4, name := "HD-1080p" }] [{ id := 1, path := "/data" }]).qualityProfileId =
        (resolveQualityProfileId radarrCfgFx.qualityProfile [{ id := 4, name := "HD-1080p" }]).fst ∧
      (Warning.qualityProfileNotFound ∈ (addMovie radarrCfgFx radarrEnvNoTmdbFx itemMovieFx).warnings ↔
        (resolveQualityProfileId radarrCfgFx.qualityProfile [{ id := 4, name := "HD-1080p" }]).snd = true)) ∧
    ((builtSeries sonarrCfgFx sonarrEnvFreshFx lookupShowFx
          [{ id := 4, name := "HD-1080p" }] [{ id := 1, path := "/data" }]).qualityProfileId =
        (resolveQualityProfileId sonarrCfgFx.qualityProfile [{ id := 4, name := "HD-1080p" }]).fst ∧
      (Warning.qualityProfileNotFound ∈ (addSeries sonarrCfgFx sonarrEnvFreshFx itemShowFx).warnings ↔
        (resolveQualityProfileId sonarrCfgFx.qualityProfile [{ id := 4, name := "HD-1080p" }]).snd = true)) :=
  ⟨c5_quality_profile_resolution.1 "HD-1080p" [{ id := 4, name := "HD-1080p" }]
      { id := 4, name := "HD-1080p" } rfl,
    c5_quality_profile_resolution.2.1 { id := 4, name := "HD-1080p" } [],
    c5_quality_profile_resolution.2.2.1 "Ultra" { id := 4, name := "HD-1080p" } [] rfl,
    c5_quality_profile_resolution.2.2.2.1 radarrCfgFx radarrEnvNoTmdbFx itemMovieFx
      (builtMovie radarrCfgFx radarrEnvNoTmdbFx lookupMovieNoTmdbFx
        [{ id := 4, name := "HD-1080p" }] [{ id := 1, path := "/data" }])
      [{ id := 4, name := "HD-1080p" }] rfl (by decide),
    c5_quality_profile_resolution.2.2.2.2 sonarrCfgFx sonarrEnvFreshFx itemShowFx
      (builtSeries sonarrCfgFx sonarrEnvFreshFx lookupShowFx
        [{ id := 4, name := "HD-1080p" }] [{ id := 1, path := "/data" }])
      [{ id := 4, name := "HD-1080p" }] rfl (by decide)⟩

/-- C10: when the manager reports an empty quality-tier list, any POSTed
body (movie or series) carries the hard-coded quality-profile id 1,
whatever tier name is configured. -/
theorem c10_empty_profiles_use_id_one :
    (∀ (cfg : RadarrConfig) (env : RadarrEnv) (item : Item) (body : RadarrMovie),
      env.qualityProfilesResponse = Except.ok [] →
      ManagerCall.postMovie body ∈ (addMovie cfg env item).calls →
      body.qualityProfileId = 1) ∧
    (∀ (cfg : SonarrConfig) (env : SonarrEnv) (item : Item) (body : SonarrSeries),
      env.qualityProfilesResponse = Except.ok [] →
      ManagerCall.postSeries body ∈ (addSeries cfg env item).calls →
      body.qualityProfileId = 1) := by
  constructor
  · intro cfg env item body hqp hmem
    obtain ⟨r, rest, profiles0, roots, hk, hl, hq, hr, hbody, hwarn⟩ :=
      addMovie_post cfg env item body hmem
    rw [hqp] at hq
    obtain rfl := (Except.ok.inj hq).symm
    subst hbody
    simp [builtMovie, buildRadarrMovie, resolveQualityProfileId_nil]
  · intro cfg env item body hqp hmem
    obtain ⟨r, rest, existing, profiles0, roots, hk, hl, hlib, hd1, hd2, hq, hr, hbody, hwarn⟩ :=
      addSeries_post cfg env item body hmem
    rw [hqp] at hq
    obtain rfl := (Except.ok.inj hq).symm
    subst hbody
    simp [builtSeries, buildSonarrSeries, resolveQualityProfileId_nil]

/-- C10 witness: concrete empty-profile environments for both managers. -/
theorem c10_witness :
    (builtMovie radarrCfgFx radarrEnvEmptyQpFx lookupMovieNoTmdbFx
        [] [{ id := 1, path := "/data" }]).qualityProfileId = 1 ∧
    (builtSeries sonarrCfgFx sonarrEnvEmptyQpFx lookupShowFx
        [] [{ id := 1, path := "/data" }]).qualityProfileId = 1 :=
  ⟨c10_empty_profiles_use_id_one.1 radarrCfgFx radarrEnvEmptyQpFx itemMovieFx
      (builtMovie radarrCfgFx radarrEnvEmptyQpFx lookupMovieNoTmdbFx
        [] [{ id := 1, path := "/data" }]) rfl (by decide),
    c10_empty_profiles_use_id_one.2 sonarrCfgFx sonarrEnvEmptyQpFx itemShowFx
      (builtSeries sonarrCfgFx sonarrEnvEmptyQpFx lookupShowFx
        [] [{ id := 1, path := "/data" }]) rfl (by decide)⟩

/-- Unfolding of the per-item loop as a map: each recorded outcome is a
function of its own entry alone. -/
theorem runSyncItems_eq_map (cfg : Configuration) (env : SyncEnv)
    (items : List WatchlistItem) :
    runSyncItems cfg env items = items.map (processItem cfg env) := by
  induction items with
  | nil => simp [runSyncItems]
  | cons w rest ih => simp [runSyncItems, ih]

/-- C3: one reconciliation pass over N entries records one terminal
outcome per entry, and the outcome at every position k is determined by
entry k alone — in particular a failed add (an `Except.error` recorded
inside the outcome at position k) leaves every other position with
exactly the outcome it would have had anyway; no failure aborts the
batch. -/
theorem c3_item_failure_isolated (cfg : Configuration) (env : SyncEnv)
    (items : List WatchlistItem) (k : Nat) :
    (runSyncItems cfg env items).length = items.length ∧
    (runSyncItems cfg env items)[k]? = (items[k]?).map (processItem cfg env) := by
  rw [runSyncItems_eq_map]
  exact ⟨by simp, by simp⟩

/-- C8 counterexample: with root "/custom" configured and the manager
reporting the single root "/data", the claim predicts the unmatched
configured root falls back to the first reported root's path "/data";
the code instead posts the configured "/custom" verbatim. -/
theorem c8_counterexample :
    radarrCfgCustomRootFx.rootFolder = some "/custom" ∧
    radarrEnvNoTmdbFx.rootFoldersResponse = Except.ok [{ id := 1, path := "/data" }] ∧
    "/custom" ∉ ["/data"] ∧
    ManagerCall.postMovie movieBodyCustomRootFx ∈
      (addMovie radarrCfgCustomRootFx radarrEnvNoTmdbFx itemMovieFx).calls ∧
    movieBodyCustomRootFx.rootFolderPath = "/custom" ∧
    "/custom" ≠ "/data" :=
  ⟨rfl, rfl, by decide, by decide, rfl, by decide⟩

/-- C8 amended: a configured storage root is used verbatim (no matching
against the manager-reported root list); only when no root is configured
does the adapter use the first reported root's path, and the fixed
manager-specific literal ("/mnt/shared/movies" for movies, "/tv" for
shows) when the manager reports no roots; every POSTed body carries the
path so resolved. -/
theorem c8_amended_root_resolution :
    (∀ (cfg : RadarrConfig) (env : RadarrEnv) (item : Item) (body : RadarrMovie)
        (roots : List RootFolder),
      ManagerCall.postMovie body ∈ (addMovie cfg env item).calls →
      env.rootFoldersResponse = Except.ok roots →
      body.rootFolderPath = resolveRootFolderPath cfg.rootFolder roots "/mnt/shared/movies") ∧
    (∀ (cfg : SonarrConfig) (env : SonarrEnv) (item : Item) (body : SonarrSeries)
        (roots : List RootFolder),
      ManagerCall.postSeries body ∈ (addSeries cfg env item).calls →
      env.rootFoldersResponse = Except.ok roots →
      body.rootFolderPath = resolveRootFolderPath cfg.rootFolder roots "/tv") ∧
    (∀ (folder : String) (roots : List RootFolder) (dp : String),
      resolveRootFolderPath (some folder) roots dp = folder) ∧
    (∀ (r0 : RootFolder) (rs : List RootFolder) (dp : String),
      resolveRootFolderPath none (r0 :: rs) dp = r0.path) ∧
    (∀ dp : String, resolveRootFolderPath none [] dp = dp) := by
  refine ⟨?_, ?_, ?_, ?_, ?_⟩
  · intro cfg env item body roots hmem hroots
    obtain ⟨r, rest, profiles0, roots0, hk, hl, hq, hr, hbody, hwarn⟩ :=
      addMovie_post cfg env item body hmem
    rw [hroots] at hr
    obtain rfl := (Except.ok.inj hr).symm
    subst hbody
    simp [builtMovie, buildRadarrMovie]
  · intro cfg env item body roots hmem hroots
    obtain ⟨r, rest, existing, profiles0, roots0, hk, hl, hlib, hd1, hd2, hq, hr, hbody, hwarn⟩ :=
      addSeries_post cfg env item body hmem
    rw [hroots] at hr
    obtain rfl := (Except.ok.inj hr).symm
    subst hbody
    simp [builtSeries, buildSonarrSeries]
  · intro folder roots dp
    simp [resolveRootFolderPath]
  · intro r0 rs dp
    simp [resolveRootFolderPath]
  · intro dp
    simp [resolveRootFolderPath]

/-- C8 witness: both POST linkages and the three resolution cases at
concrete inputs. -/
theorem c8_witness :
    movieBodyCustomRootFx.rootFolderPath =
      resolveRootFolderPath radarrCfgCustomRootFx.rootFolder
        [{ id := 1, path := "/data" }] "/mnt/shared/movies" ∧
    seriesPostedFx.rootFolderPath =
      resolveRootFolderPath sonarrCfgFx.rootFolder
        [{ id := 1, path := "/data" }] "/tv" ∧
    resolveRootFolderPath (some "/custom") [{ id := 1, path := "/data" }] "/mnt/shared/movies" = "/custom" ∧
    resolveRootFolderPath none [{ id := 1, path := "/data" }] "/mnt/shared/movies" = "/data" ∧
    resolveRootFolderPath none [] "/tv" = "/tv" :=
  ⟨c8_amended_root_resolution.1 radarrCfgCustomRootFx radarrEnvNoTmdbFx itemMovieFx
      movieBodyCustomRootFx [{ id := 1, path := "/data" }] (by decide) rfl,
    c8_amended_root_resolution.2.1 sonarrCfgFx sonarrEnvFreshFx itemShowFx
      seriesPostedFx [{ id := 1, path := "/data" }] (by decide) rfl,
    c8_amended_root_resolution.2.2.1 "/custom" [{ id := 1, path := "/data" }] "/mnt/shared/movies",
    c8_amended_root_resolution.2.2.2.1 { id := 1, path := "/data" } [] "/mnt/shared/movies",
    c8_amended_root_resolution.2.2.2.2 "/tv"⟩

/-- C4 counterexample: the first run posts the no-TMDB movie; the
second-run environment's library listing holds exactly that movie's
projection and nothing else changed, yet the second run posts the same
body again instead of returning `AlreadyExists` with no add request. -/
theorem c4_counterexample :
    ManagerCall.postMovie moviePostedNoTmdbFx ∈
      (addMovie radarrCfgFx radarrEnvNoTmdbFx itemMovieFx).calls ∧
    radarrEnvNoTmdbRun2Fx.moviesResponse =
      Except.ok [{ tmdbId := moviePostedNoTmdbFx.tmdbId }] ∧
    radarrEnvNoTmdbRun2Fx.lookupResponse = radarrEnvNoTmdbFx.lookupResponse ∧
    ManagerCall.postMovie moviePostedNoTmdbFx ∈
      (addMovie radarrCfgFx radarrEnvNoTmdbRun2Fx itemMovieFx).calls :=
  ⟨by decide, rfl, rfl, by decide⟩

/-- C4 amended: the second run returns `Ok` with no add request for every
previously-added entry whose posted record carries a TMDB id (movies),
respectively at least one of a TVDB or TMDB id (shows), when the
second-run library listing contains that record's id projection and the
lookup response is unchanged; entries whose lookup result carries none of
the dedup ids are re-posted. -/
theorem c4_amended_idempotence_with_ids :
    (∀ (cfg : RadarrConfig) (env1 env2 : RadarrEnv) (item : Item)
        (body : RadarrMovie) (lib2 : List RadarrMovieSimple),
      ManagerCall.postMovie body ∈ (addMovie cfg env1 item).calls →
      body.tmdbId.isSome = true →
      env2.lookupResponse = env1.lookupResponse →
      env2.moviesResponse = Except.ok lib2 →
      ({ tmdbId := body.tmdbId } : RadarrMovieSimple) ∈ lib2 →
      (addMovie cfg env2 item).result = Except.ok () ∧
      ∀ b, ManagerCall.postMovie b ∉ (addMovie cfg env2 item).calls) ∧
    (∀ (cfg : SonarrConfig) (env1 env2 : SonarrEnv) (item : Item)
        (body : SonarrSeries) (lib2 : List SonarrSeriesSimple),
      ManagerCall.postSeries body ∈ (addSeries cfg env1 item).calls →
      (body.tvdbId.isSome = true ∨ body.tmdbId.isSome = true) →
      env2.lookupResponse = env1.lookupResponse →
      env2.seriesResponse = Except.ok lib2 →
      ({ tvdbId := body.tvdbId, tmdbId := body.tmdbId } : SonarrSeriesSimple) ∈ lib2 →
      (addSeries cfg env2 item).result = Except.ok () ∧
      ∀ b, ManagerCall.postSeries b ∉ (addSeries cfg env2 item).calls) := by
  constructor
  · intro cfg env1 env2 item body lib2 hpost hsome hlk2 hlib2 hmemlib
    obtain ⟨r, rest, profiles0, roots0, hk, hl, hq, hr, hbody, hwarn⟩ :=
      addMovie_post cfg env1 item body hpost
    have hbtm : body.tmdbId = r.tmdbId := by
      subst hbody; simp [builtMovie, buildRadarrMovie]
    rw [hbtm] at hsome hmemlib
    obtain ⟨t, ht⟩ := Option.isSome_iff_exists.mp hsome
    rw [ht] at hmemlib
    have hhit : lib2.any (fun m => m.tmdbId == some t) = true :=
      List.any_eq_true.mpr ⟨_, hmemlib, by simp⟩
    rw [addMovie_dup_skip cfg env2 item r rest t lib2 hk (hlk2.trans hl) ht hlib2 hhit]
    exact ⟨rfl, by intro b; simp⟩
  · intro cfg env1 env2 item body lib2 hpost hsome hlk2 hlib2 hmemlib
    obtain ⟨r, rest, existing, profiles0, roots0, hk, hl, hlib1, hd1, hd2, hq, hr, hbody, hwarn⟩ :=
      addSeries_post cfg env1 item body hpost
    have hbtv : body.tvdbId = r.tvdbId := by
      subst hbody; simp [builtSeries, buildSonarrSeries]
    have hbtm : body.tmdbId = r.tmdbId := by
      subst hbody; simp [builtSeries, buildSonarrSeries]
    have hdup : tvdbDuplicate r lib2 = true ∨ tmdbDuplicate r lib2 = true := by
      rcases hsome with hs | hs
      · left
        rw [hbtv] at hs
        obtain ⟨t, ht⟩ := Option.isSome_iff_exists.mp hs
        simp only [tvdbDuplicate, ht]
        refine List.any_eq_true.mpr ⟨_, hmemlib, ?_⟩
        simp [hbtv, ht]
      · right
        rw [hbtm] at hs
        obtain ⟨t, ht⟩ := Option.isSome_iff_exists.mp hs
        simp only [tmdbDuplicate, ht]
        refine List.any_eq_true.mpr ⟨_, hmemlib, ?_⟩
        simp [hbtm, ht]
    rw [addSeries_dup_skip cfg env2 item r rest lib2 hk (hlk2.trans hl) hlib2 hdup]
    exact ⟨rfl, by intro b; simp⟩

/-- C4 amended witness: the TMDB-carrying movie and the show are
suppressed on the second run once the library holds their projections. -/
theorem c4_witness :
    ((addMovie radarrCfgFx radarrEnvDupFx itemMovieFx).result = Except.ok () ∧
      ∀ b, ManagerCall.postMovie b ∉ (addMovie radarrCfgFx radarrEnvDupFx itemMovieFx).calls) ∧
    ((addSeries sonarrCfgFx sonarrEnvRun2Fx itemShowFx).result = Except.ok () ∧
      ∀ b, ManagerCall.postSeries b ∉ (addSeries sonarrCfgFx sonarrEnvRun2Fx itemShowFx).calls) :=
  ⟨c4_amended_idempotence_with_ids.1 radarrCfgFx radarrEnvFreshFx radarrEnvDupFx
      itemMovieFx moviePostedFx [{ tmdbId := some 438631 }]
      (by decide) (by decide) rfl rfl (by decide),
    c4_amended_idempotence_with_ids.2 sonarrCfgFx sonarrEnvFreshFx sonarrEnvRun2Fx
      itemShowFx seriesPostedFx [{ tvdbId := some 111, tmdbId := some 999 }]
      (by decide) (Or.inl (by decide)) rfl rfl (by decide)⟩

/-- Processed elements carry the kind of the pass that produced them. -/
theorem processElement_kind (marker : List Char) (kind : ItemType)
    (el : List Char) (w : WatchlistItem)
    (h : processElement marker kind el = some w) :
    w.item.itemType = kind := by
  unfold processElement at h
  split at h
  · split at h
    · injection h with h2
      subst h2
      rfl
    · exact absurd h (by simp)
  · exact absurd h (by simp)

/-- Every item a scanning pass emits carries that pass's kind. -/
theorem scanForFuel_kind (openTag marker : List Char) (kind : ItemType) :
    ∀ (fuel : Nat) (xml : List Char) (w : WatchlistItem),
      w ∈ scanForFuel openTag marker kind fuel xml →
      w.item.itemType = kind := by
  intro fuel
  induction fuel with
  | zero =>
    intro xml w h
    simp [scanForFuel] at h
  | succ n ih =>
    intro xml w h
    unfold scanForFuel at h
    split at h
    · simp at h
    · split at h
      · simp at h
      · split at h
        next w0 heq =>
          rcases List.mem_cons.mp h with h1 | h1
          · rw [h1]
            exact processElement_kind _ _ _ _ heq
          · exact ih _ _ h1
        next heq =>
          exact ih _ _ h

/-- Every item a scanning pass emits was produced by `processElement` on
some element slice. -/
theorem scanForFuel_mem (openTag marker : List Char) (kind : ItemType) :
    ∀ (fuel : Nat) (xml : List Char) (w : WatchlistItem),
      w ∈ scanForFuel openTag marker kind fuel xml →
      ∃ el, processElement marker kind el = some w := by
  intro fuel
  induction fuel with
  | zero =>
    intro xml w h
    simp [scanForFuel] at h
  | succ n ih =>
    intro xml w h
    unfold scanForFuel at h
    split at h
    · simp at h
    · split at h
      · simp at h
      · split at h
        next w0 heq =>
          rcases List.mem_cons.mp h with h1 | h1
          · exact ⟨_, h1 ▸ heq⟩
          · exact ih _ _ h1
        next heq =>
          exact ih _ _ h

/-- Occurrence semantics of `findSub`: a found index is an occurrence of
the pattern. -/
theorem findSub_isPrefix (pat : List Char) :
    ∀ (xml : List Char) (i : Nat), findSub pat xml = some i →
      isPrefixList pat (xml.drop i) = true := by
  intro xml
  induction xml with
  | nil =>
    intro i h
    unfold findSub at h
    split at h
    next hp =>
      injection h with h2
      subst h2
      simpa using hp
    next =>
      exact absurd h (by simp)
  | cons c cs ih =>
    intro i h
    unfold findSub at h
    split at h
    next hp =>
      injection h with h2
      subst h2
      simpa using hp
    next =>
      rcases ho : findSub pat cs with _ | j
      · rw [ho] at h
        simp at h
      · rw [ho] at h
        simp at h
        subst h
        simpa [List.drop_succ_cons] using ih j ho

/-- Each scanning pass emits its items in source enumeration order: there
is a strictly increasing sequence of opener-occurrence offsets whose
element slices process, in order, to exactly the emitted items. -/
theorem scanForFuel_source_order (openTag marker : List Char) (kind : ItemType) :
    ∀ (fuel : Nat) (xml : List Char), ∃ offs : List Nat,
      List.Pairwise (fun a b => a < b) offs ∧
      offs.map (fun p => processElement marker kind (elementSliceAt xml p)) =
        (scanForFuel openTag marker kind fuel xml).map some ∧
      ∀ p ∈ offs, isPrefixList openTag (xml.drop p) = true := by
  intro fuel
  induction fuel with
  | zero =>
    intro xml
    exact ⟨[], by simp, by simp [scanForFuel], by simp⟩
  | succ n ih =>
    intro xml
    rcases hfind : findSub openTag xml with _ | start
    · exact ⟨[], by simp, by simp [scanForFuel, hfind], by simp⟩
    · rcases hgt : findSub (">".toList) (xml.drop start) with _ | endPos
      · refine ⟨[], by simp, ?_, by simp⟩
        simp only [scanForFuel, hfind, hgt]
        simp
      · obtain ⟨offs, hpw, hmap, hocc⟩ := ih (xml.drop (start + (endPos + 1)))
        have hslice : ∀ p, elementSliceAt xml (start + (endPos + 1) + p) =
            elementSliceAt (xml.drop (start + (endPos + 1))) p := by
          intro p
          unfold elementSliceAt
          rw [← List.drop_drop p (start + (endPos + 1)) xml]
        have hdropp : ∀ p, xml.drop (start + (endPos + 1) + p) =
            (xml.drop (start + (endPos + 1))).drop p :=
          fun p => (List.drop_drop p (start + (endPos + 1)) xml).symm
        have hel : elementSliceAt xml start = (xml.drop start).take (endPos + 1) := by
          unfold elementSliceAt
          rw [hgt]
        have hcomp : (fun p => processElement marker kind (elementSliceAt xml p)) ∘
            (fun p => start + (endPos + 1) + p) =
            fun p => processElement marker kind
              (elementSliceAt (xml.drop (start + (endPos + 1))) p) := by
          funext p
          simp only [Function.comp]
          rw [hslice p]
        rcases hpe : processElement marker kind ((xml.drop start).take (endPos + 1))
            with _ | w0
        · have hstep : scanForFuel openTag marker kind (n + 1) xml =
              scanForFuel openTag marker kind n (xml.drop (start + (endPos + 1))) := by
            simp only [scanForFuel, hfind, hgt, hpe]
          refine ⟨offs.map (fun p => start + (endPos + 1) + p), ?_, ?_, ?_⟩
          · rw [List.pairwise_map]
            exact hpw.imp (fun hab => by omega)
          · rw [List.map_map, hcomp, hmap, hstep]
          · intro p hp
            simp only [List.mem_map] at hp
            obtain ⟨q, hq, rfl⟩ := hp
            rw [hdropp q]
            exact hocc q hq
        · have hstep : scanForFuel openTag marker kind (n + 1) xml =
              w0 :: scanForFuel openTag marker kind n (xml.drop (start + (endPos + 1))) := by
            simp only [scanForFuel, hfind, hgt, hpe]
          refine ⟨start :: offs.map (fun p => start + (endPos + 1) + p), ?_, ?_, ?_⟩
          · rw [List.pairwise_cons]
            constructor
            · intro b hb
              simp only [List.mem_map] at hb
              obtain ⟨q, hq, rfl⟩ := hb
              omega
            · rw [List.pairwise_map]
              exact hpw.imp (fun hab => by omega)
          · rw [List.map_cons, List.map_map, hcomp, hmap, hstep, List.map_cons,
              hel, hpe]
          · intro p hp
            rcases List.mem_cons.mp hp with h1 | h1
            · subst h1
              exact findSub_isPrefix openTag xml p hfind
            · simp only [List.mem_map] at h1
              obtain ⟨q, hq, rfl⟩ := h1
              rw [hdropp q]
              exact hocc q hq

/-- C6 counterexample: in a payload where a well-formed show record
(opener at offset 0) precedes a well-formed movie record (opener at
offset 47), the reader emits the movie first — output order is not
source enumeration order; the reader regroups by kind. -/
theorem c6_counterexample :
    (parseItems xmlInterleavedFx).map (fun w => (w.item.title, w.item.itemType)) =
      [("B", ItemType.movie), ("A", ItemType.«show»)] ∧
    findSub directoryOpenTag xmlInterleavedFx = some 0 ∧
    findSub videoOpenTag xmlInterleavedFx = some 47 :=
  ⟨by decide, by decide, by decide⟩

/-- C6 amended: the reader never errors and regroups by kind — its
output is all movie records followed by all show records — and within
each kind the emission order is the source enumeration order: every
scanning pass's output is matched, in order, by a strictly increasing
sequence of document offsets, each an occurrence of the pass's opener
whose element slice processes to the corresponding emitted item.  Output
order equals global source enumeration order only when every movie
record precedes every show record. -/
theorem c6_amended_grouped_by_kind (xml : List Char) :
    parseXmlWatchlist xml = Except.ok (parseItems xml) ∧
    parseItems xml =
      (parseItems xml).filter (fun w => w.item.itemType == ItemType.movie) ++
        (parseItems xml).filter (fun w => w.item.itemType == ItemType.«show») ∧
    (∀ (openTag marker : List Char) (kind : ItemType), ∃ offs : List Nat,
      List.Pairwise (fun a b => a < b) offs ∧
      offs.map (fun p => processElement marker kind (elementSliceAt xml p)) =
        (scanFor openTag marker kind xml).map some ∧
      ∀ p ∈ offs, isPrefixList openTag (xml.drop p) = true) := by
  refine ⟨rfl, ?_, ?_⟩
  · have hA : ∀ w ∈ scanFor videoOpenTag typeMovieMarker ItemType.movie xml,
        w.item.itemType = ItemType.movie :=
      fun w hw => scanForFuel_kind _ _ _ _ _ w hw
    have hB : ∀ w ∈ scanFor directoryOpenTag typeShowMarker ItemType.«show» xml,
        w.item.itemType = ItemType.«show» :=
      fun w hw => scanForFuel_kind _ _ _ _ _ w hw
    unfold parseItems
    rw [List.filter_append, List.filter_append,
      List.filter_eq_self.mpr (fun a ha => by simp [hA a ha]),
      List.filter_eq_nil_iff.mpr (fun a ha => by simp [hB a ha]),
      List.filter_eq_nil_iff.mpr (fun a ha => by simp [hA a ha]),
      List.filter_eq_self.mpr (fun a ha => by simp [hB a ha])]
    simp
  · intro openTag marker kind
    exact scanForFuel_source_order openTag marker kind (xml.length + 1) xml

/-- C6 witness: the amended theorem instantiated at the interleaved
payload, projecting the show pass's source-order offsets. -/
theorem c6_witness :
    parseXmlWatchlist xmlInterleavedFx = Except.ok (parseItems xmlInterleavedFx) ∧
    parseItems xmlInterleavedFx =
      (parseItems xmlInterleavedFx).filter (fun w => w.item.itemType == ItemType.movie) ++
        (parseItems xmlInterleavedFx).filter (fun w => w.item.itemType == ItemType.«show») ∧
    (∃ offs : List Nat,
      List.Pairwise (fun a b => a < b) offs ∧
      offs.map (fun p => processElement typeShowMarker ItemType.«show»
          (elementSliceAt xmlInterleavedFx p)) =
        (scanFor directoryOpenTag typeShowMarker ItemType.«show» xmlInterleavedFx).map some ∧
      ∀ p ∈ offs, isPrefixList directoryOpenTag (xmlInterleavedFx.drop p) = true) :=
  ⟨(c6_amended_grouped_by_kind xmlInterleavedFx).1,
    (c6_amended_grouped_by_kind xmlInterleavedFx).2.1,
    (c6_amended_grouped_by_kind xmlInterleavedFx).2.2
      directoryOpenTag typeShowMarker ItemType.«show»⟩

/-- C7: the reader never errors; an element whose title or rating key
does not extract, or which lacks the kind marker, contributes no output
record; every emitted record was produced by a successful element
processing whose extracted title and rating key it carries (no partial
entry). -/
theorem c7_malformed_records_dropped :
    (∀ xml, parseXmlWatchlist xml = Except.ok (parseItems xml)) ∧
    (∀ (marker : List Char) (kind : ItemType) (el : List Char),
      (extractAttr titleQuotePat el = none ∨ extractAttr ratingKeyQuotePat el = none ∨
        containsSub marker el = false) →
      processElement marker kind el = none) ∧
    (∀ (marker : List Char) (kind : ItemType) (el : List Char) (w : WatchlistItem),
      processElement marker kind el = some w →
      containsSub marker el = true ∧
      ∃ titleChars keyChars,
        extractAttr titleQuotePat el = some titleChars ∧
        extractAttr ratingKeyQuotePat el = some keyChars ∧
        w.item.title = String.mk titleChars ∧
        w.item.id = String.mk keyChars) ∧
    (∀ xml w, w ∈ parseItems xml →
      (∃ el, processElement typeMovieMarker ItemType.movie el = some w) ∨
      (∃ el, processElement typeShowMarker ItemType.«show» el = some w)) := by
  refine ⟨fun xml => rfl, ?_, ?_, ?_⟩
  · intro marker kind el h
    rcases h with h | h | h
    · simp [processElement, h]
    · simp [processElement, h]
    · simp [processElement, h]
  · intro marker kind el w h
    unfold processElement at h
    split at h
    next hc =>
      split at h
      next titleChars keyChars hT hK =>
        injection h with h2
        subst h2
        simp only [Bool.and_eq_true] at hc
        exact ⟨hc.1.1, titleChars, keyChars, hT, hK, rfl, rfl⟩
      next =>
        exact absurd h (by simp)
    next =>
      exact absurd h (by simp)
  · intro xml w hmem
    unfold parseItems at hmem
    rcases List.mem_append.mp hmem with h | h
    · exact Or.inl (scanForFuel_mem _ _ _ _ _ w h)
    · exact Or.inr (scanForFuel_mem _ _ _ _ _ w h)

/-- C7 witness: a movie element lacking a title attribute is dropped,
and the reader succeeds on the payload consisting of it. -/
theorem c7_witness :
    parseXmlWatchlist elNoTitleFx = Except.ok (parseItems elNoTitleFx) ∧
    processElement typeMovieMarker ItemType.movie elNoTitleFx = none :=
  ⟨c7_malformed_records_dropped.1 elNoTitleFx,
    c7_malformed_records_dropped.2.1 typeMovieMarker ItemType.movie elNoTitleFx
      (Or.inl (by decide))⟩

end Watchlistarr
